import Mathlib

/-!
Shallow embedding of the Neon-Goals-Service vehicle listing pipeline.

Text is modelled as `List Char`.  Python regular-expression searches are
embedded as hand-compiled scanning functions: each definition carries the
original pattern in its doc comment.  For every pattern used by the code the
sub-expressions are pairwise character-disjoint at the points where the
Python engine could backtrack, so greedy maximal-munch scanning is
equivalent to the backtracking semantics of `re.search` / `re.finditer`.
Python `str.lower` is embedded for the ASCII range, which covers every
indicator and alias string appearing in the code.
-/

namespace VehicleSpec

/-- ASCII lower-casing of one character, as Python `str.lower` acts on ASCII. -/
def pyLowerChar (c : Char) : Char :=
  if 65 ≤ c.toNat ∧ c.toNat ≤ 90 then Char.ofNat (c.toNat + 32) else c

/-- Python `str.lower` on a text (ASCII range). -/
def pyLower (s : List Char) : List Char := s.map pyLowerChar

/-- Python regex class `\d`. -/
def isDigitC (c : Char) : Bool := 48 ≤ c.toNat && c.toNat ≤ 57

/-- Python regex class `\s` (ASCII whitespace set of Python `str.split` and `\s`). -/
def isSpaceC (c : Char) : Bool :=
  c == ' ' || c == '\t' || c == '\n' || c == '\r' || c == Char.ofNat 11 || c == Char.ofNat 12

/-- ASCII letter. -/
def isAlphaC (c : Char) : Bool :=
  (97 ≤ c.toNat && c.toNat ≤ 122) || (65 ≤ c.toNat && c.toNat ≤ 90)

/-- Python regex class `\w` (ASCII part), used for `\b` word boundaries. -/
def isWordC (c : Char) : Bool := isAlphaC c || isDigitC c || c == '_'

/-- Holds when the pattern is an initial segment of the text. -/
def startsWithL : List Char → List Char → Bool
  | [], _ => true
  | _ :: _, [] => false
  | p :: ps, c :: cs => p == c && startsWithL ps cs

/-- Python substring containment `pat in s`. -/
def isSubstr (pat : List Char) : List Char → Bool
  | [] => pat.isEmpty
  | c :: cs => startsWithL pat (c :: cs) || isSubstr pat cs

/-- Python `str.strip()`: remove whitespace from both ends. -/
def stripL (s : List Char) : List Char :=
  ((s.dropWhile isSpaceC).reverse.dropWhile isSpaceC).reverse

/-- Split a text at every occurrence of `sep` (Python `str.split(sep)`). -/
def splitChar (sep : Char) : List Char → List (List Char)
  | [] => [[]]
  | c :: cs =>
    let r := splitChar sep cs
    if c == sep then [] :: r
    else
      match r with
      | [] => [[c]]
      | h :: t => (c :: h) :: t

/-- Decimal value of a digit string, as Python `int` on a digit literal. -/
def natOfDigits (ds : List Char) : Nat :=
  ds.foldl (fun a c => 10 * a + (c.toNat - 48)) 0

/-- Embeds `extract_number` (shared by the scraper scripts):
strip every character outside `[\d,.]`, drop commas, then `int(float(...))`
with any exception mapped to `0`.  After cleaning, the text holds only
digits and dots, so the float round-trip succeeds exactly when the text
splits on dots into at most two digit groups that are not both empty, and
truncation keeps the integer part. -/
def extract_number (text : List Char) : Int :=
  let kept := text.filter (fun c => isDigitC c || c == ',' || c == '.')
  let cleaned := kept.filter (fun c => c != ',')
  if !cleaned.isEmpty && cleaned.all isDigitC then
    (natOfDigits cleaned : Int)
  else
    match splitChar '.' cleaned with
    | [ip, fp] =>
      if ip.all isDigitC && fp.all isDigitC && (!ip.isEmpty || !fp.isEmpty) then
        (natOfDigits ip : Int)
      else 0
    | _ => 0

/-- Leftmost-match search: try the head matcher at every suffix, left to right,
as `re.search` tries every start offset in order. -/
def scanFirst (f : List Char → Option α) : List Char → Option α
  | [] => f []
  | c :: cs =>
    match f (c :: cs) with
    | some r => some r
    | none => scanFirst f cs

/-- Consume an optional leading dollar sign (regex `\$?` followed by a
character class disjoint from `$`, so the optional is equivalent to a
deterministic consume-if-present). -/
def dropDollarOpt (s : List Char) : List Char :=
  match s with
  | '$' :: t => t
  | _ => s

/-- Greedy `(\d+)`: the maximal leading digit run, requiring at least one digit;
returns the run and the rest. -/
def takeDigits1 (s : List Char) : Option (List Char × List Char) :=
  let ds := s.takeWhile isDigitC
  if ds.isEmpty then none else some (ds, s.drop ds.length)

/-! ## Query normalizer: `scripts/parse_vehicle_query.py`, `parse_with_patterns` -/

/-- Head match of the one-group price patterns `LIT\s*\$?(\d+)` of
`parse_with_patterns` (`LIT` is `under`, `below`, `less than`, `max` or `up to`). -/
def matchPriceLit (lit : List Char) (s : List Char) : Option Nat :=
  if startsWithL lit s then
    let r1 := (s.drop lit.length).dropWhile isSpaceC
    let r2 := dropDollarOpt r1
    match takeDigits1 r2 with
    | some (ds, _) => some (natOfDigits ds)
    | none => none
  else none

/-- Head match of the range price pattern `\$?(\d+)\s*-\s*\$?(\d+)`. -/
def matchRangeAt (s : List Char) : Option (Nat × Nat) := do
  let r1 := dropDollarOpt s
  let (ds1, r2) ← takeDigits1 r1
  let r3 := r2.dropWhile isSpaceC
  let r4 ← match r3 with
    | '-' :: t => some t
    | _ => none
  let r5 := r4.dropWhile isSpaceC
  let r6 := dropDollarOpt r5
  let (ds2, _) ← takeDigits1 r6
  pure (natOfDigits ds1, natOfDigits ds2)

/-- Head match of the pattern `between\s*\$?(\d+)\s*and\s*\$?(\d+)`. -/
def matchBetweenAt (s : List Char) : Option (Nat × Nat) :=
  if startsWithL "between".data s then do
    let r1 := (s.drop 7).dropWhile isSpaceC
    let r2 := dropDollarOpt r1
    let (ds1, r3) ← takeDigits1 r2
    let r4 := r3.dropWhile isSpaceC
    if startsWithL "and".data r4 then
      let r5 := (r4.drop 3).dropWhile isSpaceC
      let r6 := dropDollarOpt r5
      let (ds2, _) ← takeDigits1 r6
      pure (natOfDigits ds1, natOfDigits ds2)
    else none
  else none

/-- Embeds the price-pattern loop of `parse_with_patterns` (lines 86 to 105):
the seven patterns are tried in source order against the lower-cased query
and the loop breaks at the first match.  A one-group pattern yields only a
maximum price; a two-group pattern yields both bounds in the order written
in the text. -/
def findPriceMatch (ql : List Char) : Option (Option Nat × Nat) :=
  ((scanFirst (matchPriceLit "under".data) ql).map (fun n => ((none : Option Nat), n))) <|>
  ((scanFirst (matchPriceLit "below".data) ql).map (fun n => ((none : Option Nat), n))) <|>
  ((scanFirst (matchPriceLit "less than".data) ql).map (fun n => ((none : Option Nat), n))) <|>
  ((scanFirst (matchPriceLit "max".data) ql).map (fun n => ((none : Option Nat), n))) <|>
  ((scanFirst matchRangeAt ql).map (fun p => (some p.1, p.2))) <|>
  ((scanFirst matchBetweenAt ql).map (fun p => (some p.1, p.2))) <|>
  ((scanFirst (matchPriceLit "up to".data) ql).map (fun n => ((none : Option Nat), n)))

/-- Head match of `20\d{2}` with a trailing word boundary (`\b` to the right). -/
def yearAt : List Char → Option Nat
  | '2' :: '0' :: c :: d :: rest =>
    if isDigitC c && isDigitC d &&
        (match rest with | [] => true | e :: _ => !isWordC e) then
      some (natOfDigits ['2', '0', c, d])
    else none
  | _ => none

/-- Leftmost search for `\b(20\d{2})\b`, carrying the previous character to
decide the left word boundary. -/
def yearScan (prev : Option Char) : List Char → Option Nat
  | [] => none
  | c :: cs =>
    let okBoundary := match prev with
      | none => true
      | some p => !isWordC p
    match (if okBoundary then yearAt (c :: cs) else none) with
    | some y => some y
    | none => yearScan (some c) cs

/-- Embeds `re.search(r'\b(20\d{2})\b', query)` of `parse_with_patterns`. -/
def findYear (q : List Char) : Option Nat := yearScan none q

/-- Global filter vocabularies of the filter catalog (the `global_filters`
object read by `parse_with_patterns`). -/
structure FilterCatalog where
  body_types : List (List Char)
  fuel_types : List (List Char)
  drivetrains : List (List Char)
  exterior_colors : List (List Char)
  features : List (List Char)
deriving DecidableEq, Repr

/-- First vocabulary entry whose lower-cased form is contained in the
lower-cased query (the break-on-first-match loops for color, body type,
drivetrain and fuel type). -/
def firstVocabMatch (vocab : List (List Char)) (ql : List Char) : Option (List Char) :=
  vocab.find? (fun v => isSubstr (pyLower v) ql)

/-- The `common_makes` alias table of `parse_with_patterns`, in dict
insertion order. -/
def common_makes : List (List Char × List Char) :=
  [ ("gmc".data, "GMC".data), ("ford".data, "Ford".data),
    ("chevrolet".data, "Chevrolet".data), ("chevy".data, "Chevrolet".data),
    ("toyota".data, "Toyota".data), ("honda".data, "Honda".data),
    ("jeep".data, "Jeep".data), ("ram".data, "Ram".data),
    ("dodge".data, "Dodge".data), ("nissan".data, "Nissan".data),
    ("bmw".data, "BMW".data), ("mercedes".data, "Mercedes".data),
    ("lexus".data, "Lexus".data), ("audi".data, "Audi".data),
    ("cadillac".data, "Cadillac".data), ("buick".data, "Buick".data),
    ("lincoln".data, "Lincoln".data), ("acura".data, "Acura".data),
    ("infiniti".data, "Infiniti".data), ("volkswagen".data, "Volkswagen".data),
    ("volvo".data, "Volvo".data), ("subaru".data, "Subaru".data),
    ("mazda".data, "Mazda".data), ("kia".data, "Kia".data),
    ("hyundai".data, "Hyundai".data), ("mitsubishi".data, "Mitsubishi".data) ]

/-- Embeds the make loop: every alias contained in the lower-cased query
appends its proper name, in table order. -/
def makesOf (ql : List Char) : List (List Char) :=
  (common_makes.filter (fun p => isSubstr p.1 ql)).map Prod.snd

/-- Embeds the model if/elif chain of `parse_with_patterns` (lines 163 to 188). -/
def modelsOf (ql : List Char) : List (List Char) :=
  if isSubstr "sierra".data ql || isSubstr "silverado".data ql then
    if isSubstr "3500".data ql || isSubstr "1500".data ql then
      [if isSubstr "sierra".data ql then "Sierra 3500".data else "Silverado 1500".data]
    else
      [if isSubstr "sierra".data ql then "Sierra".data else "Silverado".data]
  else if isSubstr "f-150".data ql || isSubstr "f150".data ql then ["F-150".data]
  else if isSubstr "rav4".data ql then ["RAV4".data]
  else if isSubstr "cr-v".data ql || isSubstr "crv".data ql then ["CR-V".data]
  else if isSubstr "wrangler".data ql then ["Wrangler".data]
  else if isSubstr "grand cherokee".data ql then ["Grand Cherokee".data]
  else if isSubstr "tacoma".data ql then ["Tacoma".data]
  else if isSubstr "tundra".data ql then ["Tundra".data]
  else if isSubstr "camry".data ql then ["Camry".data]
  else if isSubstr "corvette".data ql then ["Corvette".data]
  else if isSubstr "mustang".data ql then ["Mustang".data]
  else []

/-- The `trim_patterns` table of `parse_with_patterns`, in dict insertion order. -/
def trim_patterns : List (List Char × List Char) :=
  [ ("denali ultimate".data, "Denali Ultimate".data), ("denali".data, "Denali".data),
    ("at4".data, "AT4".data), ("lariat".data, "Lariat".data),
    ("king ranch".data, "King Ranch".data), ("platinum".data, "Platinum".data),
    ("limited".data, "Limited".data), ("rubicon".data, "Rubicon".data),
    ("sahara".data, "Sahara".data), ("xle".data, "XLE".data),
    ("xse".data, "XSE".data) ]

/-- Embeds the trim loop: every trim key contained in the lower-cased query
appends its canonical form, in table order. -/
def trimsOf (ql : List Char) : List (List Char) :=
  (trim_patterns.filter (fun p => isSubstr p.1 ql)).map Prod.snd

/-- The `location` sub-object of the structured result. -/
structure QueryLocation where
  zip : Option (List Char)
  distance : Option Nat
  city : Option (List Char)
  state : Option (List Char)
deriving DecidableEq, Repr

/-- The structured output of the query normalizer (the `structured` object
built by `parse_with_patterns`, together with the original query). -/
structure CanonicalQuery where
  query : List Char
  makes : List (List Char)
  models : List (List Char)
  trims : List (List Char)
  year : Option Nat
  yearMin : Option Nat
  yearMax : Option Nat
  minPrice : Option Nat
  maxPrice : Option Nat
  drivetrain : Option (List Char)
  fuelType : Option (List Char)
  bodyType : Option (List Char)
  transmission : Option (List Char)
  doors : Option Nat
  cylinders : Option Nat
  exteriorColor : Option (List Char)
  interiorColor : Option (List Char)
  features : List (List Char)
  location : QueryLocation
deriving DecidableEq, Repr

/-- Embeds `parse_with_patterns(query, catalog)` of
`scripts/parse_vehicle_query.py`. -/
def parse_with_patterns (query : List Char) (catalog : FilterCatalog) : CanonicalQuery :=
  let ql := pyLower query
  { query := query
    makes := makesOf ql
    models := modelsOf ql
    trims := trimsOf ql
    year := findYear query
    yearMin := none
    yearMax := none
    minPrice := (findPriceMatch ql).bind (fun r => r.1)
    maxPrice := (findPriceMatch ql).map (fun r => r.2)
    drivetrain := firstVocabMatch catalog.drivetrains ql
    fuelType := firstVocabMatch catalog.fuel_types ql
    bodyType := firstVocabMatch catalog.body_types ql
    transmission := none
    doors := none
    cylinders := none
    exteriorColor := firstVocabMatch catalog.exterior_colors ql
    interiorColor := none
    features := catalog.features.filter (fun f => isSubstr (pyLower f) ql)
    location := ⟨none, none, none, none⟩ }

/-- The empty catalog (returned by `load_filter_catalog` when the catalog
file is absent). -/
def emptyCatalog : FilterCatalog := ⟨[], [], [], [], []⟩

/-- The canonical listing record every scraper emits
(`{name, price, mileage, image, retailer, url, location}`). -/
structure Listing where
  name : List Char
  price : Int
  mileage : Int
  image : List Char
  retailer : List Char
  url : List Char
  location : List Char
deriving DecidableEq, Repr

/-! ## AutoTrader CDP scraper: `scripts/scrape-autotrader-cdp.py` -/

/-- The apostrophe character, kept out of string literals. -/
def apos : List Char := [Char.ofNat 39]

/-- The `bot_detection_indicators` list (lines 139 to 151), in source order. -/
def bot_detection_indicators : List (List Char) :=
  [ "page unavailable".data,
    "site unavailable".data,
    "access denied".data,
    "blocked".data,
    "couldn".data ++ apos ++ "t find the page".data,
    "having trouble".data,
    "please try again later".data,
    "Access to this page has been denied".data,
    "you don".data ++ apos ++ "t have permission".data,
    "Incident Number:".data,
    "We".data ++ apos ++ "re sorry for any inconvenience".data ]

/-- The `no_results_indicators` list (lines 157 to 164), in source order. -/
def no_results_indicators : List (List Char) :=
  [ "No matching vehicles".data,
    "No results found".data,
    "0 results".data,
    "No cars found".data,
    "Try changing your search".data,
    "No exact matches".data ]

/-- Outcome of the two ordered indicator checks run on the page text. -/
inductive PageClass where
  | blocked
  | noResults
  | usable
deriving DecidableEq, Repr

/-- Embeds the two ordered indicator checks of `scrape_autotrader_cdp`
(lines 152 and 165): bot-defense indicators first, matched case-insensitively
(`indicator.lower() in page_text.lower()`), then the no-results indicators,
matched case-sensitively (`indicator in page_text`). -/
def classifyPage (pageText : List Char) : PageClass :=
  if bot_detection_indicators.any (fun ind => isSubstr (pyLower ind) (pyLower pageText)) then
    PageClass.blocked
  else if no_results_indicators.any (fun ind => isSubstr ind pageText) then
    PageClass.noResults
  else PageClass.usable

/-- Head match of `/vehicle/(\d+)`. -/
def matchVehicleIdAt (s : List Char) : Option (List Char) :=
  if startsWithL "/vehicle/".data s then
    match takeDigits1 (s.drop 9) with
    | some (ds, _) => some ds
    | none => none
  else none

/-- Embeds `re.search(r'/vehicle/(\d+)', url.split('#')[0])` (line 189):
the derived vehicle id of a listing URL, when one exists. -/
def vehicleIdOf (url : List Char) : Option (List Char) :=
  scanFirst matchVehicleIdAt (url.takeWhile (fun c => c != '#'))

/-- One candidate listing element: the link URL and the texts and image the
render capability resolves for it (`href`, link `inner_text`, the ancestor
card text found by the DOM walk, and the ancestor image source). -/
structure ATCandidate where
  url : List Char
  linkText : List Char
  allText : List Char
  image : List Char
deriving DecidableEq, Repr

/-- Embeds the deduplication loop of `scrape_autotrader_cdp` (lines 177 to
198): skip empty URLs, key by the derived vehicle id, keep the first
occurrence of each id; a candidate whose URL yields no id is not appended. -/
def dedupeGo (seen : List (List Char)) : List ATCandidate → List ATCandidate
  | [] => []
  | l :: rest =>
    if l.url.isEmpty then dedupeGo seen rest
    else
      match vehicleIdOf l.url with
      | some vid =>
        if vid ∈ seen then dedupeGo seen rest
        else l :: dedupeGo (vid :: seen) rest
      | none => dedupeGo seen rest

/-- Runs the deduplication loop with an empty seen set. -/
def dedupeListings (ls : List ATCandidate) : List ATCandidate := dedupeGo [] ls

/-- Head match of `\$\s*([\d,]+)` (line 250): a dollar sign, optional
whitespace, then a maximal nonempty run of digits and commas. -/
def matchDollarAt (s : List Char) : Option (List Char) :=
  match s with
  | '$' :: t =>
    let r := t.dropWhile isSpaceC
    let g := r.takeWhile (fun c => isDigitC c || c == ',')
    if g.isEmpty then none else some g
  | _ => none

/-- Head match of `\d{1,2},\d{3}` (line 256), greedy: two leading digits
preferred, one as fallback.  Returns the matched token and its length. -/
def matchComma45At (s : List Char) : Option (List Char × Nat) :=
  let two : Option (List Char × Nat) :=
    match s with
    | a :: b :: ',' :: c :: d :: e :: _ =>
      if isDigitC a && isDigitC b && isDigitC c && isDigitC d && isDigitC e then
        some ([a, b, ',', c, d, e], 6)
      else none
    | _ => none
  let one : Option (List Char × Nat) :=
    match s with
    | a :: ',' :: c :: d :: e :: _ =>
      if isDigitC a && isDigitC c && isDigitC d && isDigitC e then
        some ([a, ',', c, d, e], 5)
      else none
    | _ => none
  two <|> one

/-- Head match of `\d{5,6}` (line 263), greedy: six digits preferred. -/
def matchPlain56At (s : List Char) : Option (List Char × Nat) :=
  match s with
  | a :: b :: c :: d :: e :: f :: _ =>
    if isDigitC a && isDigitC b && isDigitC c && isDigitC d && isDigitC e then
      if isDigitC f then some ([a, b, c, d, e, f], 6)
      else some ([a, b, c, d, e], 5)
    else none
  | [a, b, c, d, e] =>
    if isDigitC a && isDigitC b && isDigitC c && isDigitC d && isDigitC e then
      some ([a, b, c, d, e], 5)
    else none
  | _ => none

/-- Scanning loop of `re.finditer`, structurally recursive on a fuel
argument: at each position try the matcher; on a match emit its token and
continue right after its end (`k` characters on, `k ≥ 1` for the patterns
used here), else advance one position. -/
def finditerFuel (f : List Char → Option (List Char × Nat)) :
    Nat → List Char → List (List Char)
  | 0, _ => []
  | _ + 1, [] => []
  | fuel + 1, c :: cs =>
    match f (c :: cs) with
    | some (g, k) => g :: finditerFuel f fuel (cs.drop (k - 1))
    | none => finditerFuel f fuel cs

/-- Embeds `re.finditer`: scan left to right, emit each non-overlapping
match and continue after its end.  The text length bounds the number of
scanning steps, so it serves as fuel. -/
def finditerGo (f : List Char → Option (List Char × Nat)) (s : List Char) :
    List (List Char) :=
  finditerFuel f s.length s

/-- The shared loop body of the two numeric-token price tiers (lines 256 to
268): each matched token becomes a candidate value unless it lies in the
1900 to 2100 year range or outside the 5000 to 500000 plausible range. -/
def priceTierCandidates (gs : List (List Char)) : List Int :=
  gs.filterMap (fun g =>
    let p := extract_number g
    if 1900 ≤ p ∧ p ≤ 2100 then none
    else if 5000 ≤ p ∧ p ≤ 500000 then some p
    else none)

/-- Embeds the price extraction of `scrape_autotrader_cdp` (lines 249 to
270): the `\$\s*([\d,]+)` search first; otherwise the comma-grouped token
tier, then (only when the former yields no candidate) the plain 5-6 digit
tier, taking the last candidate in document order; `0` when nothing
qualifies. -/
def atPrice (all_text : List Char) : Int :=
  match scanFirst matchDollarAt all_text with
  | some g => extract_number g
  | none =>
    let commaCands := priceTierCandidates (finditerGo matchComma45At all_text)
    let cands :=
      if commaCands.isEmpty then
        priceTierCandidates (finditerGo matchPlain56At all_text)
      else commaCands
    (cands.getLast?).getD 0

/-- Head match of `(\d+)\s*mi\b` with `re.IGNORECASE` (line 273): a maximal
digit run, optional whitespace, `mi` in either case, then a word boundary. -/
def matchMiAt (s : List Char) : Option Nat :=
  match takeDigits1 s with
  | some (ds, rest) =>
    let r := rest.dropWhile isSpaceC
    match r with
    | m :: i :: rest2 =>
      if (m == 'm' || m == 'M') && (i == 'i' || i == 'I') &&
          (match rest2 with | [] => true | e :: _ => !isWordC e) then
        some (natOfDigits ds)
      else none
    | _ => none
  | none => none

/-- Embeds the mileage extraction of `scrape_autotrader_cdp` (line 274):
the first `(\d+)\s*mi\b` match, else `0`. -/
def atMileage (all_text : List Char) : Int :=
  (((scanFirst matchMiAt all_text).getD 0 : Nat) : Int)

/-- The dealer-brand alternation of the location regex (line 302). -/
def dealerBrands : List (List Char) :=
  [ "Buick".data, "GMC".data, "Ford".data, "Toyota".data, "Honda".data,
    "Chevrolet".data ]

/-- ASCII upper-case letter. -/
def isUpperC (c : Char) : Bool := 65 ≤ c.toNat && c.toNat ≤ 90

/-- ASCII lower-case letter. -/
def isLowerC (c : Char) : Bool := 97 ≤ c.toNat && c.toNat ≤ 122

/-- Head match of the dealer pattern
`([A-Z][a-zA-Z]+\s+(?:Buick|GMC|Ford|Toyota|Honda|Chevrolet)\s+(?:[A-Z][a-z]+)?)`
(line 302): a capitalized word, whitespace, one brand literal, whitespace,
then an optional capitalized lower-case word. -/
def matchDealerAt (s : List Char) : Option (List Char) :=
  match s with
  | c :: rest =>
    if isUpperC c then
      let w := rest.takeWhile isAlphaC
      if w.isEmpty then none
      else
        let r1 := rest.drop w.length
        let sp1 := r1.takeWhile isSpaceC
        if sp1.isEmpty then none
        else
          let r2 := r1.drop sp1.length
          match dealerBrands.find? (fun b => startsWithL b r2) with
          | some b =>
            let r3 := r2.drop b.length
            let sp2 := r3.takeWhile isSpaceC
            if sp2.isEmpty then none
            else
              let r4 := r3.drop sp2.length
              let optWord :=
                match r4 with
                | u :: r5 =>
                  if isUpperC u then
                    let ls := r5.takeWhile isLowerC
                    if ls.isEmpty then [] else u :: ls
                  else []
                | [] => []
              some (c :: (w ++ sp1 ++ b ++ sp2 ++ optWord))
          | none => none
    else none
  | [] => none

/-- Embeds one iteration of the extraction loop of `scrape_autotrader_cdp`
(lines 200 to 324): URL cleanup, the short- and junk-title skips, price and
mileage extraction from the resolved card text, the dealer location search,
and the `price > 0` emission guard.  The ancestor text and image resolution
are render-capability calls whose results the candidate carries. -/
def atProcess (cand : ATCandidate) : Option Listing :=
  let url0 := cand.url.takeWhile (fun c => c != '#')
  let url := if startsWithL "http".data url0 then url0
             else "https://www.autotrader.com".data ++ url0
  let title := stripL cand.linkText
  if title.isEmpty || title.length < 10 ||
      title == "No Accidents".data || title == "Clean Title".data ||
      title == " accident".data then
    none
  else
    let all_text := cand.allText
    let price := atPrice all_text
    let mileage := atMileage all_text
    let location :=
      match scanFirst matchDealerAt all_text with
      | some g => "AutoTrader (".data ++ g ++ ")".data
      | none => "AutoTrader".data
    if price > 0 then
      some { name := title, price := price, mileage := mileage,
             image := cand.image, retailer := "AutoTrader".data,
             url := url, location := location }
    else none

/-- Embeds the page-level result construction of `scrape_autotrader_cdp`
(lines 129 to 324): classify the page text (bot-defense indicators before
no-results indicators, both returning an empty result), return empty when no
candidate links exist, otherwise deduplicate, bound by `max_results`, and
extract per candidate. -/
def scrapePage (pageText : List Char) (cands : List ATCandidate)
    (max_results : Nat) : List Listing :=
  match classifyPage pageText with
  | PageClass.blocked => []
  | PageClass.noResults => []
  | PageClass.usable =>
    if cands.isEmpty then []
    else ((dedupeListings cands).take max_results).filterMap atProcess

/-! ## KBB scraper: `scripts/scrape-kbb.py` -/

/-- One KBB candidate link: its full text, URL and image source as resolved
by the render capability. -/
structure KBBCandidate where
  allText : List Char
  url : List Char
  image : List Char
deriving DecidableEq, Repr

/-- Head match of `\$?([\d,]+)` (line 87): optional dollar sign then a
maximal nonempty run of digits and commas. -/
def kbbNumRunAt (s : List Char) : Option (List Char) :=
  let r := dropDollarOpt s
  let g := r.takeWhile (fun c => isDigitC c || c == ',')
  if g.isEmpty then none else some g

/-- Embeds the price loop of `scrape_kbb` (lines 85 to 90): the first line
whose `\$?([\d,]+)` match contains a comma sets the price to
`extract_number` of the whole line. -/
def kbbPriceOf (lines : List (List Char)) : Int :=
  match lines.find? (fun l =>
      match scanFirst kbbNumRunAt l with
      | some g => g.contains ','
      | none => false) with
  | some l => extract_number l
  | none => 0

/-- Head match of `(New|Used|Certified)\s+\d{4}` (line 96), case-sensitive. -/
def kbbCondAt (s : List Char) : Option Unit :=
  match ["New".data, "Used".data, "Certified".data].find?
      (fun w => startsWithL w s) with
  | some w =>
    let r := s.drop w.length
    let sp := r.takeWhile isSpaceC
    if sp.isEmpty then none
    else
      match r.drop sp.length with
      | a :: b :: c :: d :: _ =>
        if isDigitC a && isDigitC b && isDigitC c && isDigitC d then some ()
        else none
      | _ => none
  | none => none

/-- Whether a line matches the condition pattern of `scrape_kbb`. -/
def kbbIsCondLine (l : List Char) : Bool := (scanFirst kbbCondAt l).isSome

/-- Embeds `re.search(r'\d{4}', line)` (line 98): the first four consecutive
digits of the line. -/
def kbbYear4 (l : List Char) : Option Nat :=
  scanFirst (fun s =>
    match s with
    | a :: b :: c :: d :: _ =>
      if isDigitC a && isDigitC b && isDigitC c && isDigitC d then
        some (natOfDigits [a, b, c, d])
      else none
    | _ => none) l

/-- Python `line.split()[0]`: the first whitespace-separated token. -/
def firstToken (l : List Char) : List Char :=
  (l.dropWhile isSpaceC).takeWhile (fun c => !isSpaceC c)

/-- Whether `re.search(r'\$[\d,]+', line)` succeeds (line 102). -/
def kbbHasDollarNum (l : List Char) : Bool :=
  (scanFirst (fun s =>
    match s with
    | '$' :: t =>
      if (t.takeWhile (fun c => isDigitC c || c == ',')).isEmpty then none
      else some ()
    | _ => none) l).isSome

/-- Whether the case-insensitive `(Buick|GMC|Dealer|Availability)` search
succeeds (line 102). -/
def kbbHasSkipWord (l : List Char) : Bool :=
  ["buick".data, "gmc".data, "dealer".data, "availability".data].any
    (fun w => isSubstr w (pyLower l))

/-- Embeds the condition/year/title loop of `scrape_kbb` (lines 94 to 106):
condition lines update condition and year; a non-price, non-dealer line
longer than five characters becomes the title and stops the loop. -/
def kbbTitleLoop (cond : List Char) (yr : Nat) :
    List (List Char) → List Char × Nat × List Char
  | [] => (cond, yr, [])
  | l :: ls =>
    if kbbIsCondLine l then
      kbbTitleLoop (firstToken l) ((kbbYear4 l).getD yr) ls
    else if !kbbHasDollarNum l && !kbbHasSkipWord l then
      if l.length > 5 then (cond, yr, l)
      else kbbTitleLoop cond yr ls
    else kbbTitleLoop cond yr ls

/-- The dealer words of the location loop of `scrape_kbb` (line 116). -/
def kbbDealerWords : List (List Char) :=
  [ "buick".data, "gmc".data, "chevrolet".data, "ford".data, "toyota".data,
    "honda".data, "dealer".data ]

/-- Embeds the dealer loop of `scrape_kbb` (lines 113 to 119): the first
line containing a dealer word case-insensitively and starting neither with
`Confirm` nor with `New`; default `KBB Dealer`. -/
def kbbDealerOf (lines : List (List Char)) : List Char :=
  match lines.find? (fun l =>
      kbbDealerWords.any (fun w => isSubstr w (pyLower l)) &&
      !startsWithL "Confirm".data l && !startsWithL "New".data l) with
  | some l => l
  | none => "KBB Dealer".data

/-- Head match of `(\d+[,\d]*)\s*(K|k)?\s*mi` with `re.IGNORECASE`
(line 131): a digit run extended by digits and commas, optional whitespace,
an optional `K`, optional whitespace, then `mi` in either case.  Returns the
numeric group and whether the `K` group matched. -/
def kbbMiAt (s : List Char) : Option (List Char × Bool) :=
  match takeDigits1 s with
  | some (ds, rest) =>
    let ext := rest.takeWhile (fun c => isDigitC c || c == ',')
    let g1 := ds ++ ext
    let r1 := (rest.drop ext.length).dropWhile isSpaceC
    let kAndRest : Bool × List Char :=
      match r1 with
      | 'K' :: t => (true, t)
      | 'k' :: t => (true, t)
      | _ => (false, r1)
    let r3 := kAndRest.2.dropWhile isSpaceC
    match r3 with
    | m :: i :: _ =>
      if (m == 'm' || m == 'M') && (i == 'i' || i == 'I') then
        some (g1, kAndRest.1)
      else none
    | _ => none
  | none => none

/-- Embeds the mileage extraction of `scrape_kbb` (lines 127 to 135): zero
unless the condition lower-cases to `used`; then the first mileage match,
multiplied by 1000 when the `K` suffix matched. -/
def kbbMileage (cond : List Char) (all_text : List Char) : Int :=
  if pyLower cond == "used".data then
    match scanFirst kbbMiAt all_text with
    | some gk => extract_number gk.1 * (if gk.2 then 1000 else 1)
    | none => 0
  else 0

/-- Embeds one iteration of the extraction loop of `scrape_kbb` (lines 64 to
147): URL cleanup, line splitting and stripping, price from the first
comma-grouped numeric line, condition/year/title scan, dealer lookup,
condition-gated mileage, and the `price > 0` emission guard. -/
def kbbProcess (query : List Char) (cand : KBBCandidate) : Option Listing :=
  let url := if startsWithL "http".data cand.url then cand.url
             else "https://www.kbb.com".data ++ cand.url
  let lines := ((splitChar '\n' cand.allText).map stripL).filter
    (fun l => !l.isEmpty)
  let price := kbbPriceOf lines
  let ct := kbbTitleLoop [] 0 lines
  let title := if ct.2.2.isEmpty then query else ct.2.2
  let dealer := kbbDealerOf lines
  let mileage := kbbMileage ct.1 cand.allText
  if price > 0 then
    some { name := title, price := price, mileage := mileage,
           image := cand.image, retailer := "KBB".data, url := url,
           location := dealer }
  else none

/-- Embeds the result loop of `scrape_kbb`: the first `max_results`
candidates are processed and the guarded listings collected in order. -/
def scrape_kbb (query : List Char) (cands : List KBBCandidate)
    (max_results : Nat) : List Listing :=
  (cands.take max_results).filterMap (kbbProcess query)

/-! ## TrueCar scraper: `scripts/scrape-truecar.py` -/

/-- The search filters consumed by `scrape_truecar` (the fields its GraphQL
channel reads). -/
structure TCFilters where
  make : Option (List Char)
  model : Option (List Char)
  year : Option Nat
  series : Option (List Char)
deriving DecidableEq, Repr

/-- Python truthiness of an optional string: present and nonempty. -/
def truthy : Option (List Char) → Bool
  | none => false
  | some s => !s.isEmpty

/-- One edge of the GraphQL response body. -/
structure TCEdge where
  year : List Char
  makeName : List Char
  modelName : List Char
  listPrice : Option Int
  mileage : Option Int
deriving DecidableEq, Repr

/-- The GraphQL exchange outcome: HTTP status, whether the JSON body carries
a top-level `errors` key, and the decoded edges. -/
structure TCResponse where
  status : Nat
  hasErrorsKey : Bool
  edges : List TCEdge
deriving DecidableEq, Repr

/-- Python `x or 0` on an optional number. -/
def pyOrZero (x : Option Int) : Int := x.getD 0

/-- Embeds the `query_parts` construction of `scrape_truecar_graphql`
(lines 46 to 56): truthy make, model, stringified year, series, in order. -/
def tcQueryParts (f : TCFilters) : List (List Char) :=
  (if truthy f.make then [f.make.getD []] else []) ++
  (if truthy f.model then [f.model.getD []] else []) ++
  (match f.year with
   | some y => if y ≠ 0 then [(toString y).data] else []
   | none => []) ++
  (if truthy f.series then [f.series.getD []] else [])

/-- Embeds the per-edge listing construction of `scrape_truecar_graphql`
(lines 104 to 120): stripped title from year, make and model, and
`listPrice or 0` / `mileage or 0`. -/
def tcEdgeListing (e : TCEdge) : Listing :=
  { name := stripL (e.year ++ " ".data ++ e.makeName ++ " ".data ++
      e.modelName)
    price := pyOrZero e.listPrice
    mileage := pyOrZero e.mileage
    image := []
    retailer := "TrueCar".data
    url := "https://www.truecar.com".data
    location := "TrueCar".data }

/-- Embeds `scrape_truecar_graphql` (lines 27 to 127) around an injected
HTTP exchange: `None` when no query terms exist, on a non-200 status, when
the body has an `errors` key, or when no edges decode; otherwise the edge
list mapped to listings, `None` again if that list is empty. -/
def scrape_truecar_graphql (f : TCFilters) (resp : TCResponse) :
    Option (List Listing) :=
  if (tcQueryParts f).isEmpty then none
  else if resp.status ≠ 200 then none
  else if resp.hasErrorsKey then none
  else if resp.edges.isEmpty then none
  else
    let results := resp.edges.map tcEdgeListing
    if results.isEmpty then none else some results

/-- Embeds `scrape_truecar` (lines 299 to 313) with the rendered channel as
an injected collaborator: the fast GraphQL channel runs only when both make
and model are truthy, and only a truthy fast result is returned; every other
outcome falls back to the rendered channel. -/
def scrape_truecar (f : TCFilters) (resp : TCResponse)
    (rendered : List Listing) : List Listing :=
  if truthy f.make && truthy f.model then
    match scrape_truecar_graphql f resp with
    | some results => if results.isEmpty then rendered else results
    | none => rendered
  else rendered

/-! ## Spec-side definitions used to state refined or amended claims -/

/-- Modelled from the amended claim wording for the numeric-token price
heuristic: a token value is a plausible price when it avoids the 1900 to
2100 calendar-year range and lies in the 5000 to 500000 range. -/
def qualifiesPrice (p : Int) : Prop :=
  ¬(1900 ≤ p ∧ p ≤ 2100) ∧ (5000 ≤ p ∧ p ≤ 500000)

instance (p : Int) : Decidable (qualifiesPrice p) := by
  unfold qualifiesPrice
  infer_instance

/-- Modelled from the amended claim wording: filter the token values of the
comma-grouped tier by plausibility and select the last in document order;
only when that tier qualifies nothing, do the same over the plain 5-6 digit
tier; `0` when nothing qualifies anywhere. -/
def specNumericPrice (t : List Char) : Int :=
  let lc := ((finditerGo matchComma45At t).map extract_number).filter
    (fun p => decide (qualifiesPrice p))
  let lp := ((finditerGo matchPlain56At t).map extract_number).filter
    (fun p => decide (qualifiesPrice p))
  ((if lc.isEmpty then lp else lc).getLast?).getD 0

/-! ## Helper lemmas -/

theorem extract_number_nonneg (t : List Char) : 0 ≤ extract_number t := by
  simp only [extract_number]
  split
  · exact Int.natCast_nonneg _
  · split
    · split
      · exact Int.natCast_nonneg _
      · exact le_refl 0
    · exact le_refl 0

theorem atMileage_nonneg (t : List Char) : 0 ≤ atMileage t := by
  unfold atMileage
  exact Int.natCast_nonneg _

theorem kbbMileage_nonneg (cond t : List Char) : 0 ≤ kbbMileage cond t := by
  unfold kbbMileage
  split
  · split
    · refine mul_nonneg (extract_number_nonneg _) ?_
      split <;> norm_num
    · exact le_refl 0
  · exact le_refl 0

theorem atProcess_guard {c : ATCandidate} {l : Listing}
    (h : atProcess c = some l) : 0 < l.price ∧ 0 ≤ l.mileage := by
  simp only [atProcess] at h
  split at h
  · cases h
  · split at h
    · rename_i hpos
      injection h with h2
      subst h2
      exact ⟨hpos, atMileage_nonneg _⟩
    · cases h

theorem kbbProcess_guard {q : List Char} {c : KBBCandidate} {l : Listing}
    (h : kbbProcess q c = some l) : 0 < l.price ∧ 0 ≤ l.mileage := by
  simp only [kbbProcess] at h
  split at h
  · rename_i hpos
    injection h with h2
    subst h2
    exact ⟨hpos, kbbMileage_nonneg _ _⟩
  · cases h

/-! ## Claim C1 -/

/-- C1 as stated is false on the code: a reversed dollar range matches the
two-group range pattern as written, so `minPrice` exceeds `maxPrice`. -/
theorem C1_counterexample :
    (parse_with_patterns "$50000-$20000".data emptyCatalog).minPrice = some 50000 ∧
    (parse_with_patterns "$50000-$20000".data emptyCatalog).maxPrice = some 20000 ∧
    ¬(50000 ≤ 20000) := by
  decide

/-- C1 (amended): `parse_with_patterns` is total and its price fields obey
the weaker structural invariant the code actually maintains: whenever
`minPrice` is set, `maxPrice` is set too (both come from the same two-group
pattern match); the ordering `minPrice ≤ maxPrice` is not guaranteed. -/
theorem C1_minPrice_implies_maxPrice (q : List Char) (cat : FilterCatalog)
    (h : (parse_with_patterns q cat).minPrice.isSome = true) :
    (parse_with_patterns q cat).maxPrice.isSome = true := by
  have hmin : (parse_with_patterns q cat).minPrice
      = (findPriceMatch (pyLower q)).bind (fun r => r.1) := rfl
  have hmax : (parse_with_patterns q cat).maxPrice
      = (findPriceMatch (pyLower q)).map (fun r => r.2) := rfl
  rw [hmin] at h
  rw [hmax]
  cases hfp : findPriceMatch (pyLower q) with
  | none => rw [hfp] at h; simp at h
  | some r => simp

/-- Witness for C1: a forward dollar range sets both bounds. -/
theorem C1_witness :
    (parse_with_patterns "$20000-$40000".data emptyCatalog).minPrice.isSome = true ∧
    (parse_with_patterns "$20000-$40000".data emptyCatalog).maxPrice.isSome = true :=
  ⟨by decide, C1_minPrice_implies_maxPrice _ _ (by decide)⟩

/-! ## Claim C3 -/

/-- C3: the bot-defense indicator list is checked first, case-insensitively;
any hit classifies the page as blocked and the scraper returns an empty
list, whatever else (including no-results phrases) the text contains. -/
theorem C3_bot_defense_precedence (t : List Char) (cands : List ATCandidate)
    (maxr : Nat)
    (h : ∃ ind ∈ bot_detection_indicators,
      isSubstr (pyLower ind) (pyLower t) = true) :
    classifyPage t = PageClass.blocked ∧ scrapePage t cands maxr = [] := by
  have hb : (bot_detection_indicators.any
      (fun ind => isSubstr (pyLower ind) (pyLower t))) = true := by
    rw [List.any_eq_true]
    obtain ⟨i, hi, hs⟩ := h
    exact ⟨i, hi, hs⟩
  have hc : classifyPage t = PageClass.blocked := by
    simp only [classifyPage, hb, if_true]
  refine ⟨hc, ?_⟩
  simp only [scrapePage, hc]

/-- Witness for C3: a page text holding the denial phrase and a no-results
phrase still classifies as blocked and yields the empty result. -/
theorem C3_witness :
    classifyPage "Access to this page has been denied. No results found".data
      = PageClass.blocked ∧
    scrapePage "Access to this page has been denied. No results found".data
      [] 5 = [] :=
  C3_bot_defense_precedence _ [] 5 (by decide)

/-! ## Claim C4 -/

/-- C4: evaluation of the extraction code at the failing card text.  The
dollar-pattern tier does yield `price = 103615`, but the mileage regex
`(\d+)\s*mi\b` cannot cross the comma of `60,000 mi` and leftmost-matches
the trailing `000 mi`, so the extracted mileage is `0`, not `60000`. -/
theorem C4_failing_input_eval :
    isSubstr "$103,615".data
      "New 2026 GMC Sierra 3500 Denali Ultimate $103,615 60,000 mi Dublin Buick GMC".data = true ∧
    isSubstr "60,000 mi".data
      "New 2026 GMC Sierra 3500 Denali Ultimate $103,615 60,000 mi Dublin Buick GMC".data = true ∧
    atPrice
      "New 2026 GMC Sierra 3500 Denali Ultimate $103,615 60,000 mi Dublin Buick GMC".data = 103615 ∧
    atMileage
      "New 2026 GMC Sierra 3500 Denali Ultimate $103,615 60,000 mi Dublin Buick GMC".data = 0 := by
  decide

/-! ## Claim C5 -/

/-- C5: the scenario query yields exactly the claimed makes, models, trims
and maximum price, with the year unset, for every filter catalog. -/
theorem C5_scenario_gmc_sierra_denali (cat : FilterCatalog) :
    (parse_with_patterns "GMC Sierra Denali under $50000".data cat).makes
      = ["GMC".data] ∧
    (parse_with_patterns "GMC Sierra Denali under $50000".data cat).models
      = ["Sierra".data] ∧
    (parse_with_patterns "GMC Sierra Denali under $50000".data cat).trims
      = ["Denali".data] ∧
    (parse_with_patterns "GMC Sierra Denali under $50000".data cat).maxPrice
      = some 50000 ∧
    (parse_with_patterns "GMC Sierra Denali under $50000".data cat).year
      = none :=
  ⟨rfl, rfl, rfl, rfl, rfl⟩

/-! ## Claim C2 -/

/-- C2 as stated over every retailer scraper is false on the code: the
TrueCar fast (GraphQL) channel builds listings with `listPrice or 0` and
appends them without any price guard, so an edge whose price is absent
reaches the returned result list with `price = 0`. -/
theorem C2_counterexample :
    (scrape_truecar ⟨some "gmc".data, some "sierra".data, none, none⟩
        ⟨200, false, [⟨"2024".data, "GMC".data, "Sierra".data, none, some 7⟩]⟩
        []).map Listing.price = [0] ∧
    ¬((0 : Int) > 0) := by
  decide

/-- C2 (amended): in the rendered-channel scrapers named by the claim
(AutoTrader CDP and KBB) every listing appended to the result list has a
positive price — the `price > 0` guard precedes every append — and a
nonnegative mileage; the TrueCar fast channel is exempt. -/
theorem C2_rendered_emission_guard (pageText : List Char)
    (cands : List ATCandidate) (maxr : Nat) (query : List Char)
    (kcands : List KBBCandidate) (kmaxr : Nat) :
    (∀ l ∈ scrapePage pageText cands maxr, 0 < l.price ∧ 0 ≤ l.mileage) ∧
    (∀ l ∈ scrape_kbb query kcands kmaxr, 0 < l.price ∧ 0 ≤ l.mileage) := by
  constructor
  · intro l hl
    simp only [scrapePage] at hl
    split at hl
    · simp at hl
    · simp at hl
    · split at hl
      · simp at hl
      · rw [List.mem_filterMap] at hl
        obtain ⟨c, _, hp⟩ := hl
        exact atProcess_guard hp
  · intro l hl
    simp only [scrape_kbb] at hl
    rw [List.mem_filterMap] at hl
    obtain ⟨c, _, hp⟩ := hl
    exact kbbProcess_guard hp

/-- Witness for C2: one concrete emitted listing per rendered scraper. -/
theorem C2_witness :
    (0 < ({ name := "Long Title 2024".data, price := 25000, mileage := 42,
            image := [], retailer := "AutoTrader".data,
            url := "https://www.autotrader.com/vehicle/1".data,
            location := "AutoTrader".data } : Listing).price ∧
     0 ≤ ({ name := "Long Title 2024".data, price := 25000, mileage := 42,
            image := [], retailer := "AutoTrader".data,
            url := "https://www.autotrader.com/vehicle/1".data,
            location := "AutoTrader".data } : Listing).mileage) ∧
    (0 < ({ name := "Toyota Tacoma TRD".data, price := 35900, mileage := 60000,
            image := [], retailer := "KBB".data, url := "http://x".data,
            location := "Toyota Tacoma TRD".data } : Listing).price ∧
     0 ≤ ({ name := "Toyota Tacoma TRD".data, price := 35900, mileage := 60000,
            image := [], retailer := "KBB".data, url := "http://x".data,
            location := "Toyota Tacoma TRD".data } : Listing).mileage) :=
  ⟨(C2_rendered_emission_guard "inventory".data
      [⟨"/vehicle/1".data, "Long Title 2024".data, "$25,000 42 mi".data, []⟩]
      10 "q".data [] 1).1 _ (by decide),
   (C2_rendered_emission_guard "inventory".data [] 10 "q".data
      [⟨"Used 2022\nToyota Tacoma TRD\n$35,900\n60K mi\nBob Toyota Dealer".data,
        "http://x".data, []⟩] 1).2 _ (by decide)⟩

/-! ## Claim C6 -/

/-- C6 as stated is false on the code: the comma-grouped token pattern
`\d{1,2},\d{3}` admits at most two digits before the comma, so the
six-digit comma-grouped token `103,615` — plausible and outside the year
range — is not recognized (only its tail `03,615` matches, and `3615` is
dropped as implausible); with no dollar sign and no plain 5-6 digit run the
heuristic returns `0`, not `103615`. -/
theorem C6_counterexample :
    scanFirst matchDollarAt "103,615".data = none ∧
    isSubstr "103,615".data "103,615".data = true ∧
    qualifiesPrice 103615 ∧
    atPrice "103,615".data = 0 ∧
    (0 : Int) ≠ 103615 := by
  decide

/-- The tier loop body equals filtering the token values by the
plausible-price predicate. -/
theorem priceTierCandidates_eq_filter (gs : List (List Char)) :
    priceTierCandidates gs
      = (gs.map extract_number).filter (fun p => decide (qualifiesPrice p)) := by
  induction gs with
  | nil => rfl
  | cons g gs ih =>
    simp only [priceTierCandidates, List.filterMap_cons, List.map_cons,
      List.filter_cons] at ih ⊢
    by_cases h1 : 1900 ≤ extract_number g ∧ extract_number g ≤ 2100
    · simp [qualifiesPrice, h1, ih, h1.1, h1.2]
    · by_cases h2 : 5000 ≤ extract_number g ∧ extract_number g ≤ 500000
      · simp [qualifiesPrice, h1, h2, ih]
      · simp [qualifiesPrice, h1, h2, ih]

/-- C6 (amended): with no dollar match, the heuristic selects the last
plausible token of the comma-grouped tier — whose tokens carry one or two
digits before the comma, hence values below 100000 — and only when that
tier qualifies nothing, the last plausible token of the plain 5-6 digit
tier; `0` when nothing qualifies. -/
theorem C6_numeric_token_heuristic (t : List Char)
    (h : scanFirst matchDollarAt t = none) :
    atPrice t = specNumericPrice t := by
  simp only [atPrice, h, specNumericPrice, priceTierCandidates_eq_filter]

/-- Witness for C6: a dollarless text where the comma tier qualifies two
tokens and the last one in document order is selected. -/
theorem C6_witness :
    scanFirst matchDollarAt "MPG 2,024 noise 25,000 also 7,500".data = none ∧
    atPrice "MPG 2,024 noise 25,000 also 7,500".data
      = specNumericPrice "MPG 2,024 noise 25,000 also 7,500".data ∧
    specNumericPrice "MPG 2,024 noise 25,000 also 7,500".data = 7500 :=
  ⟨by decide, C6_numeric_token_heuristic _ (by decide), by decide⟩

/-! ## Claim C7 -/

/-- C7: the fast GraphQL channel is attempted only when both make and model
are truthy, and an `errors` key in the response body makes the fast channel
contribute nothing, the result coming entirely from the rendered channel. -/
theorem C7_fast_channel_gating :
    (∀ (f : TCFilters) (resp : TCResponse) (rendered : List Listing),
      resp.hasErrorsKey = true →
      scrape_truecar f resp rendered = rendered) ∧
    (∀ (f : TCFilters) (resp : TCResponse) (rendered : List Listing),
      ¬(truthy f.make = true ∧ truthy f.model = true) →
      scrape_truecar f resp rendered = rendered) := by
  constructor
  · intro f resp rendered herr
    have hg : scrape_truecar_graphql f resp = none := by
      simp only [scrape_truecar_graphql, herr]
      split_ifs <;> rfl
    unfold scrape_truecar
    split
    · rw [hg]
    · rfl
  · intro f resp rendered hnb
    have hb : (truthy f.make && truthy f.model) = false := by
      cases hm : truthy f.make <;> cases ho : truthy f.model <;> simp_all
    simp only [scrape_truecar, hb, Bool.false_eq_true, if_false]

/-- Witness for C7: an errors-key response falls back to the rendered
channel; absent make, the fast channel is never consulted. -/
theorem C7_witness :
    scrape_truecar ⟨some "gmc".data, some "sierra".data, none, none⟩
      ⟨200, true, [⟨"2024".data, "GMC".data, "Sierra".data, some 50000, some 10⟩]⟩
      [⟨"r".data, 1, 2, [], [], [], []⟩] = [⟨"r".data, 1, 2, [], [], [], []⟩] ∧
    scrape_truecar ⟨none, some "sierra".data, none, none⟩
      ⟨200, false, [⟨"2024".data, "GMC".data, "Sierra".data, some 50000, some 10⟩]⟩
      [⟨"s".data, 3, 4, [], [], [], []⟩] = [⟨"s".data, 3, 4, [], [], [], []⟩] :=
  ⟨C7_fast_channel_gating.1 _ _ _ rfl,
   C7_fast_channel_gating.2 _ _ _ (by decide)⟩

/-! ## Deduplication lemmas -/

theorem dedupeGo_sublist (seen : List (List Char)) (ls : List ATCandidate) :
    List.Sublist (dedupeGo seen ls) ls := by
  induction ls generalizing seen with
  | nil => simp [dedupeGo]
  | cons a rest ih =>
    simp only [dedupeGo]
    split
    · exact (ih seen).cons _
    · split
      · split
        · exact (ih seen).cons _
        · exact (ih _).cons₂ _
      · exact (ih seen).cons _

theorem dedupeGo_id_not_seen (seen : List (List Char))
    (ls : List ATCandidate) :
    ∀ l ∈ dedupeGo seen ls,
      ∃ v, vehicleIdOf l.url = some v ∧ v ∉ seen := by
  induction ls generalizing seen with
  | nil => intro l hl; simp [dedupeGo] at hl
  | cons a rest ih =>
    intro l hl
    simp only [dedupeGo] at hl
    split at hl
    · exact ih seen l hl
    · split at hl
      · rename_i vid hva
        split at hl
        · exact ih seen l hl
        · rename_i hmem
          rcases List.mem_cons.mp hl with rfl | hl2
          · exact ⟨vid, hva, hmem⟩
          · obtain ⟨v, hv, hns⟩ := ih (vid :: seen) l hl2
            exact ⟨v, hv, fun hin => hns (List.mem_cons_of_mem _ hin)⟩
      · exact ih seen l hl

theorem dedupeGo_pairwise (seen : List (List Char)) (ls : List ATCandidate) :
    List.Pairwise
      (fun a b : ATCandidate => vehicleIdOf a.url ≠ vehicleIdOf b.url)
      (dedupeGo seen ls) := by
  induction ls generalizing seen with
  | nil => simp [dedupeGo]
  | cons a rest ih =>
    simp only [dedupeGo]
    split
    · exact ih seen
    · split
      · rename_i vid hva
        split
        · exact ih seen
        · refine List.Pairwise.cons ?_ (ih (vid :: seen))
          intro b hb heq
          obtain ⟨v, hvb, hns⟩ := dedupeGo_id_not_seen (vid :: seen) rest b hb
          rw [hva, hvb] at heq
          exact hns (Option.some.inj heq ▸ List.mem_cons_self _ _)
      · exact ih seen

theorem dedupeGo_first_seen (seen : List (List Char))
    (ls : List ATCandidate) :
    ∀ l ∈ dedupeGo seen ls, ∀ v, vehicleIdOf l.url = some v →
      ls.find? (fun x => decide (vehicleIdOf x.url = some v)) = some l := by
  induction ls generalizing seen with
  | nil => intro l hl; simp [dedupeGo] at hl
  | cons a rest ih =>
    intro l hl v hlv
    simp only [dedupeGo] at hl
    split at hl
    · rename_i hemp
      have ha : vehicleIdOf a.url = none := by
        rw [List.isEmpty_iff.mp hemp]
        rfl
      rw [List.find?_cons_of_neg _ (by simp [ha])]
      exact ih seen l hl v hlv
    · split at hl
      · rename_i vid hva
        split at hl
        · rename_i hin
          obtain ⟨v2, hv2, hns⟩ := dedupeGo_id_not_seen seen rest l hl
          have hvv : v2 = v := Option.some.inj (hv2.symm.trans hlv)
          have hne : vehicleIdOf a.url ≠ some v := by
            rw [hva]
            intro hcon
            exact hns (hvv ▸ Option.some.inj hcon ▸ hin)
          rw [List.find?_cons_of_neg _ (by simp [hne])]
          exact ih seen l hl v hlv
        · rename_i hnin
          rcases List.mem_cons.mp hl with rfl | hl2
          · rw [List.find?_cons_of_pos _ (by simp [hlv])]
          · obtain ⟨v2, hv2, hns⟩ := dedupeGo_id_not_seen (vid :: seen) rest l hl2
            have hvv : v2 = v := Option.some.inj (hv2.symm.trans hlv)
            have hne : vehicleIdOf a.url ≠ some v := by
              rw [hva]
              intro hcon
              exact hns (hvv ▸ Option.some.inj hcon ▸ List.mem_cons_self _ _)
            rw [List.find?_cons_of_neg _ (by simp [hne])]
            exact ih (vid :: seen) l hl2 v hlv
      · rename_i hva
        have hne : vehicleIdOf a.url ≠ some v := by
          rw [hva]
          exact Option.noConfusion
        rw [List.find?_cons_of_neg _ (by simp [hne])]
        exact ih seen l hl v hlv

/-! ## Claim C8 -/

/-- C8: deduplication returns a subsequence of the input (so first-seen
order is preserved and the output is no longer than the input), no two
survivors share a derived vehicle id, and each survivor is the first
element of the input carrying its id. -/
theorem C8_dedupe_properties (ls : List ATCandidate) :
    (dedupeListings ls).length ≤ ls.length ∧
    List.Sublist (dedupeListings ls) ls ∧
    List.Pairwise
      (fun a b : ATCandidate => vehicleIdOf a.url ≠ vehicleIdOf b.url)
      (dedupeListings ls) ∧
    (∀ l ∈ dedupeListings ls, ∀ v, vehicleIdOf l.url = some v →
      ls.find? (fun x => decide (vehicleIdOf x.url = some v)) = some l) :=
  ⟨(dedupeGo_sublist [] ls).length_le, dedupeGo_sublist [] ls,
   dedupeGo_pairwise [] ls, dedupeGo_first_seen [] ls⟩

/-- Witness for C8: of two candidates deriving vehicle id `111`, the
first-seen one is the survivor the input lookup returns. -/
theorem C8_witness :
    ([ (⟨"/vehicle/111".data, "t".data, "x".data, []⟩ : ATCandidate),
       ⟨"/vehicle/111?y".data, "u".data, "x".data, []⟩,
       ⟨"/vehicle/222".data, "v".data, "x".data, []⟩ ] : List ATCandidate).find?
        (fun x => decide (vehicleIdOf x.url = some "111".data))
      = some ⟨"/vehicle/111".data, "t".data, "x".data, []⟩ :=
  (C8_dedupe_properties _).2.2.2 _ (by decide) "111".data (by decide)

/-! ## Claim C9 -/

/-- C9 as stated is false on the code: a candidate whose URL yields no
vehicle id is not keyed by any composite of title, price and mileage — it
is dropped from the deduplicated set altogether. -/
theorem C9_counterexample :
    vehicleIdOf "/cars-for-sale/vehicle/abc".data = none ∧
    dedupeListings
      [⟨"/cars-for-sale/vehicle/abc".data, "Nice Long Title".data,
        "$25,000 42 mi".data, []⟩] = [] := by
  decide

/-- C9 (amended): every survivor of deduplication carries a derived vehicle
id; candidates with no derivable id are dropped, not composite-keyed. -/
theorem C9_idless_candidates_dropped (ls : List ATCandidate) :
    ∀ l ∈ dedupeListings ls, (vehicleIdOf l.url).isSome = true := by
  intro l hl
  obtain ⟨v, hv, _⟩ := dedupeGo_id_not_seen [] ls l hl
  rw [hv]
  rfl

/-- Witness for C9: the survivor of a singleton id-bearing input carries an
id. -/
theorem C9_witness :
    (vehicleIdOf
      (⟨"/vehicle/5".data, "t".data, "x".data, []⟩ : ATCandidate).url).isSome
      = true :=
  C9_idless_candidates_dropped
    [⟨"/vehicle/5".data, "t".data, "x".data, []⟩]
    (⟨"/vehicle/5".data, "t".data, "x".data, []⟩ : ATCandidate) (by decide)

/-! ## Claim C10 -/

/-- C10 as stated is false on the code: the alias loop appends the proper
name once per alias found, and `chevy` and `chevrolet` both map to
`Chevrolet`, so a query holding both aliases lists `Chevrolet` twice. -/
theorem C10_counterexample :
    (parse_with_patterns "chevy chevrolet".data emptyCatalog).makes
      = ["Chevrolet".data, "Chevrolet".data] ∧
    ¬(parse_with_patterns "chevy chevrolet".data emptyCatalog).makes.Nodup := by
  decide

/-- The filtered alias table loses one designated entry when that entry
fails the predicate. -/
theorem filter_drop_entry {α : Type} (p : α → Bool) (l1 l2 : List α) (x : α)
    (hx : p x = false) :
    List.Sublist ((l1 ++ x :: l2).filter p) (l1 ++ l2) := by
  rw [List.filter_append, List.filter_cons, hx]
  simp only [Bool.false_eq_true, if_false]
  exact (List.filter_sublist _).append (List.filter_sublist _)

/-- C10 (amended): the makes list preserves the alias-table order and
contains no duplicates unless the text contains two distinct aliases of the
same make — concretely, unless both `chevy` and `chevrolet` occur, in which
case `Chevrolet` is listed once per alias. -/
theorem C10_makes_nodup (q : List Char) (cat : FilterCatalog)
    (h : ¬(isSubstr "chevy".data (pyLower q) = true ∧
           isSubstr "chevrolet".data (pyLower q) = true)) :
    (parse_with_patterns q cat).makes.Nodup := by
  have hm : (parse_with_patterns q cat).makes = makesOf (pyLower q) := rfl
  rw [hm]
  unfold makesOf
  by_cases hc : isSubstr "chevy".data (pyLower q) = true
  · have hcr : isSubstr "chevrolet".data (pyLower q) = false := by
      cases hcrb : isSubstr "chevrolet".data (pyLower q)
      · rfl
      · exact absurd ⟨hc, hcrb⟩ h
    have hsplit : common_makes
        = common_makes.take 2
          ++ ("chevrolet".data, "Chevrolet".data) :: common_makes.drop 3 := by
      decide
    rw [hsplit]
    have hx : (fun pr : List Char × List Char => isSubstr pr.1 (pyLower q))
        ("chevrolet".data, "Chevrolet".data) = false := hcr
    refine List.Nodup.sublist
      ((filter_drop_entry _ (common_makes.take 2) (common_makes.drop 3)
        ("chevrolet".data, "Chevrolet".data) hx).map Prod.snd) ?_
    decide
  · have hcy : isSubstr "chevy".data (pyLower q) = false := by
      cases hcyb : isSubstr "chevy".data (pyLower q)
      · rfl
      · exact absurd hcyb hc
    have hsplit : common_makes
        = common_makes.take 3
          ++ ("chevy".data, "Chevrolet".data) :: common_makes.drop 4 := by
      decide
    rw [hsplit]
    have hx : (fun pr : List Char × List Char => isSubstr pr.1 (pyLower q))
        ("chevy".data, "Chevrolet".data) = false := hcy
    refine List.Nodup.sublist
      ((filter_drop_entry _ (common_makes.take 3) (common_makes.drop 4)
        ("chevy".data, "Chevrolet".data) hx).map Prod.snd) ?_
    decide

/-- Witness for C10: one alias present yields a duplicate-free makes list. -/
theorem C10_witness :
    (parse_with_patterns "chevy toyota".data emptyCatalog).makes.Nodup :=
  C10_makes_nodup _ _ (by decide)

end VehicleSpec
